import Mathlib

/-!
# sdk-vppagent: kernel route / address handlers and the cross-connect chain

A shallow embedding of

* `pkg/networkservice/connectioncontextkernel/ipcontext/routes/server.go`
  (`setKernelRoute.Request`, `Close`, `addRoutes`, `extractCleanIPAddress`),
* `pkg/networkservice/connectioncontextkernel/ipcontext/ipaddress/server.go`
  (`setIPKernelServer.Request`, `Close`),
* `pkg/networkservice/chains/xconnectns/server.go` (`NewServer`).

Go pointers to `linux.Interface` objects are indices into an explicit object
store, so that the aliasing between the staged configuration and the
kernel-side interface slot of the context is kept.  A Go run-time panic is the
result `none`.
-/

set_option autoImplicit false

/-! ## Go's `net` package, as far as the handlers use it -/

namespace net

/-- An address as its sequence of octets (`net.IP`). -/
abbrev IP := List Nat

/-- An address mask as its sequence of octets (`net.IPMask`). -/
abbrev IPMask := List Nat

/-- The Go type `net.IPNet`. -/
structure IPNet where
  IP : IP
  Mask : IPMask
deriving DecidableEq, Repr

end net

/-- The functions of Go's standard `net` package that `addRoutes` and
`extractCleanIPAddress` call.  They are not part of the repository, so the
handlers take them as a parameter; `goNet` below is the instance used for
concrete evaluation. -/
structure NetLib where
  /-- The Go call `net.ParseCIDR(s)`; `none` stands for `err != nil`. -/
  ParseCIDR : String → Option (net.IP × net.IPNet)
  /-- The Go method `IP.String()`. -/
  IPString : net.IP → String
  /-- The Go method `(*IPNet).String()`. -/
  IPNetString : net.IPNet → String
  /-- The Go method `(*IPNet).Contains(ip)`. -/
  Contains : net.IPNet → net.IP → Bool
  /-- The Go method `IP.IsGlobalUnicast()`. -/
  IsGlobalUnicast : net.IP → Bool

/-! ### A concrete instance: dotted-decimal IPv4 text

`goNet` follows the Go standard library on IPv4 text (`a.b.c.d/n`); an IPv4
address is kept in its 4-octet form.  IPv6 text is outside this instance
(`parseIPv6` always fails here); the instance is only evaluated on IPv4 text
and on strings without a `/`. -/

namespace goNet

/-- The constant `big` of `net/parse.go`. -/
def big : Nat := 0xFFFFFF

/-- Loop of `dtoi`: `n` is the value so far, `i` the number of digits read. -/
def dtoiLoop : List Char → Nat → Nat → Option (Nat × Nat × List Char)
  | [], n, i => some (n, i, [])
  | c :: cs, n, i =>
    if '0' ≤ c ∧ c ≤ '9' then
      let n1 := n * 10 + (c.toNat - '0'.toNat)
      if n1 ≥ big then none else dtoiLoop cs n1 (i + 1)
    else some (n, i, c :: cs)

/-- Decimal to integer (`dtoi`): value and the unread rest; fails on overflow
or when there is no digit. -/
def dtoi (s : List Char) : Option (Nat × List Char) :=
  match dtoiLoop s 0 0 with
  | none => none
  | some (n, i, rest) => if i = 0 then none else some (n, rest)

/-- Loop of `parseIPv4`: `i` is the index of the octet being read. -/
def parseIPv4Loop : Nat → Nat → List Char → Option (List Nat)
  | 0, _, s => if s.isEmpty then some [] else none
  | k + 1, i, s =>
    if s.isEmpty then none
    else
      let s1 : Option (List Char) :=
        if i > 0 then
          match s with
          | '.' :: t => some t
          | _ => none
        else some s
      match s1 with
      | none => none
      | some t =>
        match dtoi t with
        | none => none
        | some (n, rest) =>
          if n > 0xFF then none
          else (parseIPv4Loop k (i + 1) rest).map (fun p => n :: p)

/-- Parse dotted-decimal IPv4 text (`parseIPv4`). -/
def parseIPv4 (s : List Char) : Option net.IP := parseIPv4Loop 4 0 s

/-- Split at the first `/` (`bytealg.IndexByteString(s, '/')`). -/
def splitSlash : List Char → Option (List Char × List Char)
  | [] => none
  | c :: cs =>
    if c = '/' then some ([], cs)
    else (splitSlash cs).map (fun p => (c :: p.1, p.2))

/-- One octet of `CIDRMask`: the first `n` bits set (`n ≤ 8`). -/
def maskByte (n : Nat) : Nat := 0xFF - (2 ^ (8 - n) - 1)

/-- The Go function `CIDRMask(ones, 8*l)` with `l` octets. -/
def CIDRMask : Nat → Nat → net.IPMask
  | _, 0 => []
  | ones, l + 1 =>
    if ones ≥ 8 then 0xFF :: CIDRMask (ones - 8) l
    else maskByte ones :: CIDRMask 0 l

/-- The Go method `IP.Mask(mask)` on operands of equal length. -/
def Mask (ip : net.IP) (mask : net.IPMask) : net.IP :=
  List.zipWith (fun a b => Nat.land a b) ip mask

/-- The Go function `net.ParseCIDR` on IPv4 text. -/
def ParseCIDR (s : String) : Option (net.IP × net.IPNet) :=
  match splitSlash s.data with
  | none => none
  | some (addr, mask) =>
    match parseIPv4 addr with
    | none => none
    | some ip =>
      match dtoi mask with
      | none => none
      | some (n, rest) =>
        if ¬ rest.isEmpty ∨ n > 8 * 4 then none
        else
          let m := CIDRMask n 4
          some (ip, { IP := Mask ip m, Mask := m })

/-- Decimal digits of `n`, most significant first, inside `fuel` steps. -/
def uitoaAux : Nat → Nat → List Char → List Char
  | 0, _, acc => acc
  | fuel + 1, n, acc =>
    let acc1 := Char.ofNat ('0'.toNat + n % 10) :: acc
    if n < 10 then acc1 else uitoaAux fuel (n / 10) acc1

/-- Unsigned integer to decimal text (`uitoa`, `ubtoa`). -/
def uitoa (n : Nat) : List Char := uitoaAux (n + 1) n []

/-- Dotted-decimal text of the octets. -/
def dotted : List Nat → List Char
  | [] => []
  | [a] => uitoa a
  | a :: rest => uitoa a ++ '.' :: dotted rest

/-- The Go method `IP.String()` for a 4-octet address. -/
def IPString (ip : net.IP) : String := String.mk (dotted ip)

/-- Number of leading one bits of an octet whose set bits are all leading;
`none` when the octet is not of that form. -/
def leadingOnes (b : Nat) : Option Nat :=
  (List.range 9).find? (fun n => maskByte n = b)

/-- The Go function `simpleMaskLength`; `none` stands for `-1`. -/
def simpleMaskLength : net.IPMask → Option Nat
  | [] => some 0
  | b :: rest =>
    if b = 0xFF then (simpleMaskLength rest).map (fun n => n + 8)
    else
      match leadingOnes b with
      | none => none
      | some n => if rest.all (fun x => x = 0) then some n else none

/-- Lower-case hexadecimal digit. -/
def hexDigit (n : Nat) : Char :=
  if n < 10 then Char.ofNat ('0'.toNat + n) else Char.ofNat ('a'.toNat + (n - 10))

/-- The Go method `IPMask.String()`: the octets in hexadecimal. -/
def hexString : List Nat → List Char
  | [] => []
  | b :: rest => hexDigit (b / 16) :: hexDigit (b % 16) :: hexString rest

/-- The Go method `(*IPNet).String()`. -/
def IPNetString (n : net.IPNet) : String :=
  match simpleMaskLength n.Mask with
  | none => String.mk (dotted n.IP ++ '/' :: hexString n.Mask)
  | some l => String.mk (dotted n.IP ++ '/' :: uitoa l)

/-- The Go method `(*IPNet).Contains(ip)`: the mask fits the network number,
the address has the length of the network number, and the masked octets are
equal. -/
def Contains (n : net.IPNet) (ip : net.IP) : Bool :=
  n.Mask.length == n.IP.length && ip.length == n.IP.length &&
    (List.zipWith (fun a b => Nat.land a b) n.IP n.Mask
      == List.zipWith (fun a b => Nat.land a b) ip n.Mask)

/-- The Go method `IP.IsGlobalUnicast()` for a 4-octet address: not the
broadcast address, not unspecified, not loopback, not multicast, not
link-local unicast. -/
def IsGlobalUnicast (ip : net.IP) : Bool :=
  match ip with
  | [a, b, c, d] =>
    !(a == 255 && b == 255 && c == 255 && d == 255) &&
    !(a == 0 && b == 0 && c == 0 && d == 0) &&
    !(a == 127) &&
    !(Nat.land a 0xF0 == 0xE0) &&
    !(a == 169 && b == 254)
  | _ => false

end goNet

/-- Go's `net` package on IPv4 text. -/
def goNet : NetLib where
  ParseCIDR := goNet.ParseCIDR
  IPString := goNet.IPString
  IPNetString := goNet.IPNetString
  Contains := goNet.Contains
  IsGlobalUnicast := goNet.IsGlobalUnicast

/-! ## Data model -/

namespace networkservice

/-- The message `networkservice.Mechanism`: class, type (`MechType`, since
`Type` is reserved) and parameters. -/
structure Mechanism where
  Cls : String
  MechType : String
  Parameters : List (String × String)
deriving DecidableEq, Repr

/-- The message `networkservice.Route` of a connection context. -/
structure Route where
  Prefix : String
deriving DecidableEq, Repr

/-- The message `networkservice.IPContext` (fields read by the handlers). -/
structure IPContext where
  SrcIpAddr : String
  DstIpAddr : String
  SrcRoutes : List Route
deriving DecidableEq, Repr

/-- The message `networkservice.ConnectionContext`; `none` is a nil pointer. -/
structure ConnectionContext where
  IpContext : Option IPContext
deriving DecidableEq, Repr

/-- The message `networkservice.Connection`; `none` is a nil pointer. -/
structure Connection where
  Id : String
  Mechanism : Option Mechanism
  Context : Option ConnectionContext
deriving DecidableEq, Repr

/-- The message `networkservice.NetworkServiceRequest`. -/
structure NetworkServiceRequest where
  Connection : Option Connection
deriving DecidableEq, Repr

/-- Nil-safe getter `(*NetworkServiceRequest).GetConnection`. -/
def NetworkServiceRequest.GetConnection (r : NetworkServiceRequest) :
    Option networkservice.Connection :=
  r.Connection

/-- Nil-safe getter `(*Connection).GetMechanism`. -/
def GetMechanism (conn : Option Connection) : Option Mechanism :=
  conn.bind (fun c => c.Mechanism)

/-- Nil-safe getter chain `conn.GetContext().GetIpContext()`. -/
def GetIpContext (conn : Option Connection) : Option IPContext :=
  (conn.bind (fun c => c.Context)).bind (fun c => c.IpContext)

/-- Nil-safe getter chain `conn.GetContext().GetIpContext().GetSrcRoutes()`. -/
def GetSrcRoutes (conn : Option Connection) : List Route :=
  match GetIpContext conn with
  | some ipc => ipc.SrcRoutes
  | none => []

/-- Nil-safe getter chain `conn.GetContext().GetIpContext().GetSrcIpAddr()`. -/
def GetSrcIpAddr (conn : Option Connection) : String :=
  match GetIpContext conn with
  | some ipc => ipc.SrcIpAddr
  | none => ""

/-- Nil-safe getter chain `conn.GetContext().GetIpContext().GetDstIpAddr()`. -/
def GetDstIpAddr (conn : Option Connection) : String :=
  match GetIpContext conn with
  | some ipc => ipc.DstIpAddr
  | none => ""

end networkservice

namespace kernel

/-- The constant `kernel.MECHANISM` of the API package. -/
def MECHANISM : String := "KERNEL"

/-- The API function `kernel.ToMechanism`: the mechanism itself when its type
is the kernel type, nil otherwise (also for a nil mechanism). -/
def ToMechanism (m : Option networkservice.Mechanism) : Option networkservice.Mechanism :=
  match m with
  | some mech => if mech.MechType = MECHANISM then some mech else none
  | none => none

end kernel

namespace linux

/-- The enumeration `linuxl3.Route_Scope`. -/
inductive Route_Scope where
  | UNDEFINED
  | GLOBAL
  | SITE
  | LINK
  | HOST
deriving DecidableEq, Repr

/-- The message `linux.Route`; an unset string field is `""`.  The `Metric`
field, which the handlers never set, is left out. -/
structure Route where
  OutgoingInterface : String := ""
  Scope : Route_Scope := Route_Scope.UNDEFINED
  DstNetwork : String := ""
  GwAddr : String := ""
deriving DecidableEq, Repr

/-- The message `linux.Interface` (fields read or written by the handlers). -/
structure Interface where
  Name : String
  IpAddresses : List String
deriving DecidableEq, Repr

/-- The message `linux.ConfigData` of the staged configuration.  `Interfaces`
holds pointers (indices into the object store of the context). -/
structure ConfigData where
  Interfaces : List Nat
  Routes : List Route
deriving DecidableEq, Repr

end linux

/-- Modelled from the spec: `vppagent.Config(ctx)` and
`kernelctx.ServerInterface(ctx)` are not among the sources.  This is the
request-scoped environment carried by `context.Context`: it always carries a
StagedConfig, and the kernel-side interface slot holds the interface a prior
handler registered, or nothing.  `store` holds the `linux.Interface` objects;
a `*linux.Interface` is an index into it, so the slot and the staged
interface list may point at the same object. -/
structure Ctx where
  store : List linux.Interface
  LinuxConfig : linux.ConfigData
  ServerInterface : Option Nat
deriving DecidableEq, Repr

namespace Ctx

/-- Nil-safe `(*linux.Interface).GetName` through a pointer. -/
def GetName (ctx : Ctx) (p : Nat) : String :=
  match ctx.store.get? p with
  | some i => i.Name
  | none => ""

/-- The statement `cfg.Routes = append(cfg.Routes, r)`. -/
def appendRoute (ctx : Ctx) (r : linux.Route) : Ctx :=
  { ctx with LinuxConfig := { ctx.LinuxConfig with Routes := ctx.LinuxConfig.Routes ++ [r] } }

/-- Several `appendRoute` in a row. -/
def appendRoutes (ctx : Ctx) (rs : List linux.Route) : Ctx :=
  { ctx with LinuxConfig := { ctx.LinuxConfig with Routes := ctx.LinuxConfig.Routes ++ rs } }

/-- The statement `iface.IpAddresses = append(iface.GetIpAddresses(), ip)`
through the pointer `p`. -/
def appendIpAddress (ctx : Ctx) (p : Nat) (ip : String) : Ctx :=
  { ctx with store := ctx.store.modify (fun i => { i with IpAddresses := i.IpAddresses ++ [ip] }) p }

end Ctx

/-! ## `routes/server.go` -/

namespace routes

/-- Source function `extractCleanIPAddress`. -/
def extractCleanIPAddress (N : NetLib) (addr : String) : String :=
  match N.ParseCIDR addr with
  | some (ip, _) => N.IPString ip
  | none => addr

/-- The `for _, route := range ...GetSrcRoutes()` loop of `addRoutes`.  The
state is the key set of `duplicatedPrefixes` and the context; `none` is the
index-out-of-range panic of `GetInterfaces()[0]`. -/
def srcRoutesLoop (N : NetLib) (dstIpAddr : String) :
    List networkservice.Route → List String → Ctx → Option (List String × Ctx)
  | [], duplicatedPrefixes, ctx => some (duplicatedPrefixes, ctx)
  | route :: rest, duplicatedPrefixes, ctx =>
    if route.Prefix ∈ duplicatedPrefixes then
      srcRoutesLoop N dstIpAddr rest duplicatedPrefixes ctx
    else
      match ctx.LinuxConfig.Interfaces with
      | [] => none
      | p :: _ =>
        srcRoutesLoop N dstIpAddr rest (route.Prefix :: duplicatedPrefixes)
          (ctx.appendRoute
            { DstNetwork := route.Prefix
              OutgoingInterface := ctx.GetName p
              Scope := linux.Route_Scope.GLOBAL
              GwAddr := extractCleanIPAddress N dstIpAddr })

/-- Source method `setKernelRoute.addRoutes`; `none` is a panic. -/
def addRoutes (N : NetLib) (ctx : Ctx) (conn : Option networkservice.Connection) : Option Ctx :=
  match kernel.ToMechanism (networkservice.GetMechanism conn) with
  | none => some ctx
  | some _ =>
    match srcRoutesLoop N (networkservice.GetDstIpAddr conn)
        (networkservice.GetSrcRoutes conn) [] ctx with
    | none => none
    | some (duplicatedPrefixes, ctx1) =>
      match N.ParseCIDR (networkservice.GetSrcIpAddr conn) with
      | none => some ctx1
      | some (_, srcNet) =>
        match N.ParseCIDR (networkservice.GetDstIpAddr conn) with
        | none => some ctx1
        | some (dstIP, dstNet) =>
          if N.IPNetString dstNet ∈ duplicatedPrefixes ∨ N.Contains srcNet dstIP = true then
            some ctx1
          else
            match ctx1.ServerInterface with
            | some iface =>
              if N.IsGlobalUnicast dstIP = true then
                some (ctx1.appendRoute
                  { DstNetwork := N.IPNetString dstNet
                    OutgoingInterface := ctx1.GetName iface
                    Scope := linux.Route_Scope.LINK })
              else some ctx1
            | none => some ctx1

end routes

/-- Error value returned by a handler. -/
abbrev GoError := String

/-- The rest of the chain behind a handler (`next.Server(ctx)`): it runs on
the context it is handed and leaves a context and a result. -/
structure NextServer where
  Request : Ctx → networkservice.NetworkServiceRequest →
    Ctx × Except GoError (Option networkservice.Connection)
  Close : Ctx → Option networkservice.Connection → Ctx × Except GoError Unit

namespace routes

/-- Source method `setKernelRoute.Request`; `none` is a panic in `addRoutes`. -/
def Request (N : NetLib) (next : NextServer) (ctx : Ctx)
    (request : networkservice.NetworkServiceRequest) :
    Option (Ctx × Except GoError (Option networkservice.Connection)) :=
  match addRoutes N ctx request.GetConnection with
  | none => none
  | some ctx1 => some (next.Request ctx1 request)

/-- Source method `setKernelRoute.Close`; `none` is a panic in `addRoutes`. -/
def Close (N : NetLib) (next : NextServer) (ctx : Ctx)
    (conn : Option networkservice.Connection) : Option (Ctx × Except GoError Unit) :=
  match addRoutes N ctx conn with
  | none => none
  | some ctx1 => some (next.Close ctx1 conn)

end routes

/-! ## `ipaddress/server.go` -/

namespace ipaddress

/-- Source method `setIPKernelServer.Request`. -/
def Request (next : NextServer) (ctx : Ctx) (request : networkservice.NetworkServiceRequest) :
    Ctx × Except GoError (Option networkservice.Connection) :=
  let ctx1 : Ctx :=
    match ctx.ServerInterface with
    | some iface =>
      let srcIP := networkservice.GetSrcIpAddr request.GetConnection
      if srcIP ≠ "" then ctx.appendIpAddress iface srcIP else ctx
    | none => ctx
  next.Request ctx1 request

/-- Source method `setIPKernelServer.Close`. -/
def Close (next : NextServer) (ctx : Ctx) (conn : Option networkservice.Connection) :
    Ctx × Except GoError Unit :=
  let ctx1 : Ctx :=
    match ctx.ServerInterface with
    | some iface =>
      let srcIP := networkservice.GetSrcIpAddr conn
      if srcIP ≠ "" then ctx.appendIpAddress iface srcIP else ctx
    | none => ctx
  next.Close ctx1 conn

end ipaddress

/-! ## `xconnectns/server.go` -/

namespace xconnectns

/-- The client-side chain elements handed to `client.NewClientFactory`. -/
inductive ClientElement where
  | memifClient (baseDir : String)
  | kernelClient
  | vxlanClient (tunnelIP : String) (vxlanInitFunc : String)
  | l2xconnectClient
deriving DecidableEq, Repr

mutual

/-- The server-side chain elements handed to `endpoint.NewServer`, as values:
each records the arguments its constructor was called with. -/
inductive Element where
  | vppagentServer
  | directmemifServer
  | memifServer (baseDir : String)
  | kernelServer
  | vxlanServer (tunnelIP : String) (vxlanInitFunc : String)
  | clienturlServer (u : String)
  | connectServer (clientFactory : ClientFactory)
  | ipaddressServer
  | routesServer
  | commitServer (vppagentCC : String)

/-- The result of `client.NewClientFactory(name, onHeal, ...)`: `onHeal` is the
server value that `adapters.NewServerToClient` wrapped, as it was when the
argument was evaluated. -/
inductive ClientFactory where
  | mk (name : String) (onHeal : xconnectNSServer) (additional : List ClientElement)

/-- The result of `endpoint.NewServer(name, ...)`: the assembled chain. -/
inductive Endpoint where
  | mk (name : String) (chain : List Element)

/-- Source type `xconnectNSServer`: a struct value embedding an
`endpoint.Endpoint` interface, nil (`none`) in the zero value. -/
inductive xconnectNSServer where
  | mk (Endpoint : Option Endpoint)

end

/-- The embedded field of the struct. -/
def xconnectNSServer.Endpoint : xconnectNSServer → Option Endpoint
  | .mk e => e

/-- The promoted method `xconnectNSServer.Request`: it is the `Request` of the
embedded `Endpoint`, so it enters that endpoint's chain; on a nil `Endpoint`
the call panics (`none`). -/
def xconnectNSServer.requestChain : xconnectNSServer → Option (List Element)
  | .mk (some (.mk _ chain)) => some chain
  | .mk none => none

/-- Source function `NewServer`; its arguments are kept as opaque
identifiers.  `rv` is a struct value, so the argument
`adapters.NewServerToClient(rv)` receives a copy of `rv` taken while the
arguments of `endpoint.NewServer` are evaluated, before `rv.Endpoint` is
assigned. -/
def NewServer (name vppagentCC baseDir tunnelIP u vxlanInitFunc : String) : xconnectNSServer :=
  let rv : xconnectNSServer := .mk none
  let rv : xconnectNSServer := .mk (some (.mk name
    [ .vppagentServer,
      .directmemifServer,
      .memifServer baseDir,
      .kernelServer,
      .vxlanServer tunnelIP vxlanInitFunc,
      .clienturlServer u,
      .connectServer (.mk name rv
        [ .memifClient baseDir,
          .kernelClient,
          .vxlanClient tunnelIP vxlanInitFunc,
          .l2xconnectClient ]),
      .ipaddressServer,
      .routesServer,
      .commitServer vppagentCC ]))
  rv

/-- The server value captured for `onHeal` by a chain element, if it is the
connect element. -/
def Element.onHeal : Element → Option xconnectNSServer
  | .connectServer (.mk _ s _) => some s
  | _ => none

/-- The server value captured for `onHeal` inside the chain of `s`. -/
def xconnectNSServer.onHeal (s : xconnectNSServer) : Option xconnectNSServer :=
  match s.requestChain with
  | some chain => chain.findSome? Element.onHeal
  | none => none

end xconnectns

/-! ## Descriptions used in the statements -/

namespace routes

/-- The prefixes of the source routes of a connection, in list order. -/
def srcPrefixes (conn : Option networkservice.Connection) : List String :=
  (networkservice.GetSrcRoutes conn).map (fun r => r.Prefix)

/-- The distinct elements of a list in order of first occurrence: the head,
then the first occurrences of the tail other than the head. -/
def firstOccurrences : List String → List String
  | [] => []
  | p :: ps => p :: (firstOccurrences ps).filter (fun q => q ≠ p)

/-- Name of the interface at `GetInterfaces()[0]` (`""` when there is none). -/
def primaryName (ctx : Ctx) : String :=
  match ctx.LinuxConfig.Interfaces with
  | p :: _ => ctx.GetName p
  | [] => ""

/-- The global-scope route for one source-route prefix. -/
def globalRoute (N : NetLib) (ctx : Ctx) (conn : Option networkservice.Connection)
    (pre : String) : linux.Route :=
  { DstNetwork := pre
    OutgoingInterface := primaryName ctx
    Scope := linux.Route_Scope.GLOBAL
    GwAddr := extractCleanIPAddress N (networkservice.GetDstIpAddr conn) }

/-- One global route per distinct source-route prefix, in order of first
occurrence. -/
def globalRoutes (N : NetLib) (ctx : Ctx) (conn : Option networkservice.Connection) :
    List linux.Route :=
  (firstOccurrences (srcPrefixes conn)).map (globalRoute N ctx conn)

/-- The conditions of the link-scope step other than the duplicate check:
both addresses parse, the destination is outside the source network and is a
global unicast address, and the kernel-side interface slot is filled. -/
def linkRouteDue (N : NetLib) (ctx : Ctx) (conn : Option networkservice.Connection) : Bool :=
  match N.ParseCIDR (networkservice.GetSrcIpAddr conn),
        N.ParseCIDR (networkservice.GetDstIpAddr conn) with
  | some (_, srcNet), some (dstIP, _) =>
    !N.Contains srcNet dstIP && N.IsGlobalUnicast dstIP && ctx.ServerInterface.isSome
  | _, _ => false

/-- The link-scope route of the destination network through interface `iface`. -/
def linkRoute (N : NetLib) (ctx : Ctx) (dstNet : net.IPNet) (iface : Nat) : linux.Route :=
  { DstNetwork := N.IPNetString dstNet
    OutgoingInterface := ctx.GetName iface
    Scope := linux.Route_Scope.LINK }

/-- The routes of the link-scope step: at most one. -/
def linkRoutes (N : NetLib) (ctx : Ctx) (conn : Option networkservice.Connection) :
    List linux.Route :=
  match N.ParseCIDR (networkservice.GetSrcIpAddr conn),
        N.ParseCIDR (networkservice.GetDstIpAddr conn),
        ctx.ServerInterface with
  | some (_, srcNet), some (dstIP, dstNet), some iface =>
    if N.IPNetString dstNet ∈ srcPrefixes conn ∨ N.Contains srcNet dstIP = true then []
    else if N.IsGlobalUnicast dstIP = true then [linkRoute N ctx dstNet iface]
    else []
  | _, _, _ => []

/-- The input on which `addRoutes` panics: a kernel mechanism, at least one
source route, and no interface in the staged Linux configuration. -/
def panics (ctx : Ctx) (conn : Option networkservice.Connection) : Prop :=
  kernel.ToMechanism (networkservice.GetMechanism conn) ≠ none ∧
    networkservice.GetSrcRoutes conn ≠ [] ∧ ctx.LinuxConfig.Interfaces = []

instance (ctx : Ctx) (conn : Option networkservice.Connection) : Decidable (panics ctx conn) := by
  unfold panics; exact inferInstance

end routes

/-! ## Concrete scenarios -/

namespace scenario

/-- A kernel mechanism. -/
def kernelMechanism : networkservice.Mechanism :=
  { Cls := "LOCAL", MechType := "KERNEL", Parameters := [] }

/-- A memif mechanism, as in `serverRequest` of the macaddress test. -/
def memifMechanism : networkservice.Mechanism :=
  { Cls := "LOCAL", MechType := "MEMIF", Parameters := [("socket-filename", "memif.sock")] }

/-- A connection with the given mechanism, addresses and source-route prefixes. -/
def connection (m : networkservice.Mechanism) (src dst : String) (prefixes : List String) :
    Option networkservice.Connection :=
  some
    { Id := "conn-1"
      Mechanism := some m
      Context := some
        { IpContext := some
            { SrcIpAddr := src
              DstIpAddr := dst
              SrcRoutes := prefixes.map (fun p => { Prefix := p }) } } }

/-- The kernel-side interface `vppKernel0`. -/
def vppKernel0 : linux.Interface := { Name := "vppKernel0", IpAddresses := [] }

/-- A staged configuration holding `vppKernel0`, which is also the kernel-side
interface of the context. -/
def registered : Ctx :=
  { store := [vppKernel0]
    LinuxConfig := { Interfaces := [0], Routes := [] }
    ServerInterface := some 0 }

/-- A staged configuration holding `vppKernel0`, with an empty kernel-side
interface slot. -/
def noServerInterface : Ctx :=
  { store := [vppKernel0]
    LinuxConfig := { Interfaces := [0], Routes := [] }
    ServerInterface := none }

/-- A fresh, empty staged configuration. -/
def empty : Ctx :=
  { store := []
    LinuxConfig := { Interfaces := [], Routes := [] }
    ServerInterface := none }

/-- A next handler that fails, as `injecterror.NewServer()`. -/
def injecterror : NextServer where
  Request := fun ctx _ => (ctx, Except.error "error originates in injectErrorServer")
  Close := fun ctx _ => (ctx, Except.error "error originates in injectErrorServer")

end scenario

/-! ## Auxiliary lemmas -/

namespace routes

theorem mem_firstOccurrences (ps : List String) (x : String) :
    x ∈ firstOccurrences ps ↔ x ∈ ps := by
  induction ps with
  | nil => simp [firstOccurrences]
  | cons p ps ih =>
    simp only [firstOccurrences, List.mem_cons, List.mem_filter, ih]
    by_cases h : x = p <;> simp [h]

theorem nodup_firstOccurrences (ps : List String) : (firstOccurrences ps).Nodup := by
  induction ps with
  | nil => simp [firstOccurrences]
  | cons p ps ih =>
    simp only [firstOccurrences, List.nodup_cons]
    exact ⟨by simp [List.mem_filter], ih.filter _⟩

theorem length_firstOccurrences (ps : List String) :
    (firstOccurrences ps).length = ps.toFinset.card := by
  rw [← List.toFinset_card_of_nodup (nodup_firstOccurrences ps)]
  congr 1
  ext x
  simp [mem_firstOccurrences]

end routes

namespace Ctx

theorem appendRoutes_nil (ctx : Ctx) : ctx.appendRoutes [] = ctx := by
  simp [appendRoutes]

theorem appendRoute_appendRoutes (ctx : Ctx) (r : linux.Route) (rs : List linux.Route) :
    (ctx.appendRoute r).appendRoutes rs = ctx.appendRoutes (r :: rs) := by
  simp [appendRoutes, appendRoute]

theorem appendRoutes_appendRoute (ctx : Ctx) (r : linux.Route) (rs : List linux.Route) :
    (ctx.appendRoutes rs).appendRoute r = ctx.appendRoutes (rs ++ [r]) := by
  simp [appendRoutes, appendRoute]

end Ctx

namespace routes

theorem filter_firstOccurrences_of_mem (ps dup : List String) (p : String) (h : p ∈ dup) :
    ((firstOccurrences ps).filter (fun q => q ≠ p)).filter (fun q => q ∉ dup)
      = (firstOccurrences ps).filter (fun q => q ∉ dup) := by
  rw [List.filter_filter]
  apply List.filter_congr
  intro x _
  by_cases hx : x ∈ dup
  · simp [hx]
  · have : x ≠ p := fun e => hx (e ▸ h)
    simp [hx, this]

theorem filter_firstOccurrences_cons (ps dup : List String) (p : String) :
    ((firstOccurrences ps).filter (fun q => q ≠ p)).filter (fun q => q ∉ dup)
      = (firstOccurrences ps).filter (fun q => q ∉ p :: dup) := by
  rw [List.filter_filter]
  apply List.filter_congr
  intro x _
  by_cases hx : x ∈ dup <;> by_cases hp : x = p <;> simp [hx, hp]

/-- The loop of `addRoutes` with an interface registered: it completes, and
appends one global route for each first occurrence of a prefix that is not
yet in the duplicate set. -/
theorem srcRoutesLoop_registered (N : NetLib) (dst : String) (p : Nat) (rest : List Nat)
    (rs : List networkservice.Route) :
    ∀ (dup : List String) (ctx : Ctx), ctx.LinuxConfig.Interfaces = p :: rest →
      ∃ dup1, srcRoutesLoop N dst rs dup ctx
          = some (dup1, ctx.appendRoutes
              (((firstOccurrences (rs.map (fun r => r.Prefix))).filter (fun q => q ∉ dup)).map
                (fun pre =>
                  { DstNetwork := pre
                    OutgoingInterface := ctx.GetName p
                    Scope := linux.Route_Scope.GLOBAL
                    GwAddr := extractCleanIPAddress N dst })))
        ∧ ∀ x, x ∈ dup1 ↔ x ∈ dup ∨ x ∈ rs.map (fun r => r.Prefix) := by
  induction rs with
  | nil =>
    intro dup ctx _
    exact ⟨dup, by simp [srcRoutesLoop, firstOccurrences, Ctx.appendRoutes_nil], by simp⟩
  | cons r rs ih =>
    intro dup ctx hi
    by_cases h : r.Prefix ∈ dup
    · obtain ⟨dup1, h1, h2⟩ := ih dup ctx hi
      refine ⟨dup1, ?_, ?_⟩
      · simp only [srcRoutesLoop, h, if_true, h1, List.map_cons, firstOccurrences]
        rw [List.filter_cons_of_neg (by simpa using h),
          filter_firstOccurrences_of_mem _ _ _ h]
      · intro x
        rw [h2 x]
        simp only [List.map_cons, List.mem_cons]
        constructor
        · rintro (hx | hx)
          · exact Or.inl hx
          · exact Or.inr (Or.inr hx)
        · rintro (hx | hx | hx)
          · exact Or.inl hx
          · exact Or.inl (hx ▸ h)
          · exact Or.inr hx
    · have hi1 : (ctx.appendRoute
          { DstNetwork := r.Prefix
            OutgoingInterface := ctx.GetName p
            Scope := linux.Route_Scope.GLOBAL
            GwAddr := extractCleanIPAddress N dst }).LinuxConfig.Interfaces = p :: rest := by
        simpa [Ctx.appendRoute] using hi
      obtain ⟨dup1, h1, h2⟩ := ih (r.Prefix :: dup) _ hi1
      refine ⟨dup1, ?_, ?_⟩
      · simp only [srcRoutesLoop, h, if_false, hi, h1, List.map_cons, firstOccurrences]
        rw [List.filter_cons_of_pos (by simpa using h), filter_firstOccurrences_cons,
          Ctx.appendRoute_appendRoutes]
        rfl
      · intro x
        rw [h2 x]
        simp only [List.map_cons, List.mem_cons]
        constructor
        · rintro ((hx | hx) | hx)
          · exact Or.inr (Or.inl hx)
          · exact Or.inl hx
          · exact Or.inr (Or.inr hx)
        · rintro (hx | hx | hx)
          · exact Or.inl (Or.inr hx)
          · exact Or.inl (Or.inl hx)
          · exact Or.inr hx

/-- The loop of `addRoutes` without a registered interface, started on the
empty duplicate set: it panics at the first source route. -/
theorem srcRoutesLoop_unregistered (N : NetLib) (dst : String)
    (rs : List networkservice.Route) (ctx : Ctx) (hi : ctx.LinuxConfig.Interfaces = []) :
    srcRoutesLoop N dst rs [] ctx = if rs = [] then some ([], ctx) else none := by
  cases rs with
  | nil => simp [srcRoutesLoop]
  | cons r rs => simp [srcRoutesLoop, hi]

end routes

namespace routes

theorem globalRoutes_eq (N : NetLib) (ctx : Ctx) (conn : Option networkservice.Connection)
    (p : Nat) (rest : List Nat) (hi : ctx.LinuxConfig.Interfaces = p :: rest) :
    globalRoutes N ctx conn
      = (firstOccurrences (srcPrefixes conn)).map (fun pre =>
          { DstNetwork := pre
            OutgoingInterface := ctx.GetName p
            Scope := linux.Route_Scope.GLOBAL
            GwAddr := extractCleanIPAddress N (networkservice.GetDstIpAddr conn) }) := by
  simp [globalRoutes, globalRoute, primaryName, hi]

/-- The link-scope step of `addRoutes`, run on the context `ctx1` that the
loop left, with the duplicate set `dup`. -/
theorem linkStep_eq (N : NetLib) (ctx : Ctx) (conn : Option networkservice.Connection)
    (G : List linux.Route) (dup : List String)
    (hdup : ∀ x, x ∈ dup ↔ x ∈ srcPrefixes conn) :
    (match N.ParseCIDR (networkservice.GetSrcIpAddr conn) with
      | none => some (ctx.appendRoutes G)
      | some (_, srcNet) =>
        match N.ParseCIDR (networkservice.GetDstIpAddr conn) with
        | none => some (ctx.appendRoutes G)
        | some (dstIP, dstNet) =>
          if N.IPNetString dstNet ∈ dup ∨ N.Contains srcNet dstIP = true then
            some (ctx.appendRoutes G)
          else
            match (ctx.appendRoutes G).ServerInterface with
            | some iface =>
              if N.IsGlobalUnicast dstIP = true then
                some ((ctx.appendRoutes G).appendRoute
                  { DstNetwork := N.IPNetString dstNet
                    OutgoingInterface := (ctx.appendRoutes G).GetName iface
                    Scope := linux.Route_Scope.LINK })
              else some (ctx.appendRoutes G)
            | none => some (ctx.appendRoutes G))
      = some (ctx.appendRoutes (G ++ linkRoutes N ctx conn)) := by
  unfold linkRoutes
  cases hs : N.ParseCIDR (networkservice.GetSrcIpAddr conn) with
  | none => simp
  | some sp =>
    obtain ⟨srcIP, srcNet⟩ := sp
    cases hd : N.ParseCIDR (networkservice.GetDstIpAddr conn) with
    | none => simp
    | some dp =>
      obtain ⟨dstIP, dstNet⟩ := dp
      have hsi : (ctx.appendRoutes G).ServerInterface = ctx.ServerInterface := rfl
      simp only [hsi, hdup]
      cases hif : ctx.ServerInterface with
      | none => simp
      | some iface =>
        by_cases hc : N.IPNetString dstNet ∈ srcPrefixes conn ∨ N.Contains srcNet dstIP = true
        · simp [hc]
        · by_cases hg : N.IsGlobalUnicast dstIP = true
          · simp only [hc, hg, if_true, if_false, Ctx.appendRoutes_appendRoute]
            rfl
          · simp [hc, hg]

/-- Closed form of `addRoutes`. -/
theorem addRoutes_eq (N : NetLib) (ctx : Ctx) (conn : Option networkservice.Connection) :
    addRoutes N ctx conn =
      if kernel.ToMechanism (networkservice.GetMechanism conn) = none then some ctx
      else if panics ctx conn then none
      else some (ctx.appendRoutes (globalRoutes N ctx conn ++ linkRoutes N ctx conn)) := by
  unfold addRoutes
  cases hk : kernel.ToMechanism (networkservice.GetMechanism conn) with
  | none => simp
  | some m =>
    simp only [reduceCtorEq, if_false]
    cases hi : ctx.LinuxConfig.Interfaces with
    | nil =>
      rw [srcRoutesLoop_unregistered N _ _ ctx hi]
      cases hr : networkservice.GetSrcRoutes conn with
      | nil =>
        have hp : ¬ panics ctx conn := by simp [panics, hr]
        have hG : globalRoutes N ctx conn = [] := by
          simp [globalRoutes, srcPrefixes, hr, firstOccurrences]
        simp only [if_true, hp, if_false, hG]
        have := linkStep_eq N ctx conn [] [] (by simp [srcPrefixes, hr])
        simpa [Ctx.appendRoutes_nil] using this
      | cons r rs =>
        have hp : panics ctx conn := by simp [panics, hr, hk, hi]
        simp [hp]
    | cons p rest =>
      have hp : ¬ panics ctx conn := by simp [panics, hi]
      obtain ⟨dup1, h1, h2⟩ := srcRoutesLoop_registered N (networkservice.GetDstIpAddr conn)
        p rest (networkservice.GetSrcRoutes conn) [] ctx hi
      have hG : ((firstOccurrences ((networkservice.GetSrcRoutes conn).map
            (fun r => r.Prefix))).filter (fun q => q ∉ ([] : List String))).map
          (fun pre =>
            ({ DstNetwork := pre
               OutgoingInterface := ctx.GetName p
               Scope := linux.Route_Scope.GLOBAL
               GwAddr := extractCleanIPAddress N (networkservice.GetDstIpAddr conn) } :
              linux.Route))
          = globalRoutes N ctx conn := by
        rw [globalRoutes_eq N ctx conn p rest hi]
        simp [srcPrefixes]
      rw [hG] at h1
      rw [h1]
      simp only [hp, if_false]
      exact linkStep_eq N ctx conn (globalRoutes N ctx conn) dup1 (by
        intro x
        rw [h2 x]
        simp [srcPrefixes])

end routes

namespace routes

theorem scope_globalRoutes (N : NetLib) (ctx : Ctx) (conn : Option networkservice.Connection)
    (r : linux.Route) (hr : r ∈ globalRoutes N ctx conn) :
    r.Scope = linux.Route_Scope.GLOBAL ∧ r.DstNetwork ∈ srcPrefixes conn := by
  simp only [globalRoutes, List.mem_map, mem_firstOccurrences] at hr
  obtain ⟨pre, hpre, rfl⟩ := hr
  exact ⟨rfl, hpre⟩

theorem length_globalRoutes (N : NetLib) (ctx : Ctx) (conn : Option networkservice.Connection) :
    (globalRoutes N ctx conn).length = (srcPrefixes conn).toFinset.card := by
  simp [globalRoutes, length_firstOccurrences]

theorem scope_linkRoutes (N : NetLib) (ctx : Ctx) (conn : Option networkservice.Connection)
    (r : linux.Route) (hr : r ∈ linkRoutes N ctx conn) :
    r.Scope = linux.Route_Scope.LINK := by
  unfold linkRoutes at hr
  split at hr
  · split at hr
    · simp at hr
    · split at hr
      · simp only [List.mem_singleton] at hr
        rw [hr]
        rfl
      · simp at hr
  · simp at hr

theorem length_linkRoutes_le (N : NetLib) (ctx : Ctx) (conn : Option networkservice.Connection) :
    (linkRoutes N ctx conn).length ≤ 1 := by
  unfold linkRoutes
  split
  · split
    · simp
    · split <;> simp
  · simp

/-- When the destination network is not a source-route prefix, the link-scope
step adds its route exactly when `linkRouteDue` holds. -/
theorem length_linkRoutes (N : NetLib) (ctx : Ctx) (conn : Option networkservice.Connection)
    (hd : ∀ dstIP dstNet, N.ParseCIDR (networkservice.GetDstIpAddr conn) = some (dstIP, dstNet) →
      N.IPNetString dstNet ∉ srcPrefixes conn) :
    (linkRoutes N ctx conn).length = if linkRouteDue N ctx conn = true then 1 else 0 := by
  unfold linkRoutes linkRouteDue
  cases hs : N.ParseCIDR (networkservice.GetSrcIpAddr conn) with
  | none => simp
  | some sp =>
    obtain ⟨srcIP, srcNet⟩ := sp
    cases hp : N.ParseCIDR (networkservice.GetDstIpAddr conn) with
    | none => simp
    | some dp =>
      obtain ⟨dstIP, dstNet⟩ := dp
      have hnd := hd dstIP dstNet hp
      cases hif : ctx.ServerInterface with
      | none => simp
      | some iface =>
        by_cases hc : N.Contains srcNet dstIP = true
        · simp [hc]
        · by_cases hg : N.IsGlobalUnicast dstIP = true
          · simp [hc, hg, hnd]
          · simp [hc, hg, hnd]

end routes

/-! ## The route handler -/

/-- C1, as stated, fails: with an interface registered in the staged
configuration and no source route (N = 0), the destination `8.8.8.8/32` is a
global unicast address outside the source network `10.0.0.0/24`, yet
`addRoutes` appends no route when the kernel-side interface slot is empty; and
with the slot filled it appends none either when the source address does not
parse. -/
theorem c1_link_route_needs_target_and_source :
    kernel.ToMechanism (networkservice.GetMechanism
        (scenario.connection scenario.kernelMechanism "10.0.0.1/24" "8.8.8.8/32" [])) ≠ none ∧
      scenario.noServerInterface.LinuxConfig.Interfaces = [0] ∧
      goNet.ParseCIDR "10.0.0.1/24"
        = some ([10, 0, 0, 1], { IP := [10, 0, 0, 0], Mask := [255, 255, 255, 0] }) ∧
      goNet.ParseCIDR "8.8.8.8/32"
        = some ([8, 8, 8, 8], { IP := [8, 8, 8, 8], Mask := [255, 255, 255, 255] }) ∧
      goNet.IsGlobalUnicast [8, 8, 8, 8] = true ∧
      goNet.Contains { IP := [10, 0, 0, 0], Mask := [255, 255, 255, 0] } [8, 8, 8, 8] = false ∧
      routes.addRoutes goNet scenario.noServerInterface
          (scenario.connection scenario.kernelMechanism "10.0.0.1/24" "8.8.8.8/32" [])
        = some scenario.noServerInterface ∧
      goNet.ParseCIDR "" = none ∧
      routes.addRoutes goNet scenario.registered
          (scenario.connection scenario.kernelMechanism "" "8.8.8.8/32" [])
        = some scenario.registered := by
  decide

/-- C1 (amended): for a kernel-mechanism connection with an interface
registered in the staged configuration and no source-route prefix equal to the
destination network, `addRoutes` completes and appends exactly N global-scope
routes (N the number of distinct source-route prefixes) plus exactly one
link-scope route if both addresses parse, the destination is a global unicast
address outside the source network and the kernel-side interface is present,
and no link-scope route otherwise: N or N+1 routes, never more. -/
theorem addRoutes_route_count (N : NetLib) (ctx : Ctx)
    (conn : Option networkservice.Connection) (p : Nat) (rest : List Nat)
    (hk : kernel.ToMechanism (networkservice.GetMechanism conn) ≠ none)
    (hi : ctx.LinuxConfig.Interfaces = p :: rest)
    (hd : ∀ dstIP dstNet,
      N.ParseCIDR (networkservice.GetDstIpAddr conn) = some (dstIP, dstNet) →
        N.IPNetString dstNet ∉ routes.srcPrefixes conn) :
    ∃ added, routes.addRoutes N ctx conn = some (ctx.appendRoutes added) ∧
      (added.filter (fun r => r.Scope = linux.Route_Scope.GLOBAL)).length
        = (routes.srcPrefixes conn).toFinset.card ∧
      (added.filter (fun r => r.Scope = linux.Route_Scope.LINK)).length
        = (if routes.linkRouteDue N ctx conn = true then 1 else 0) ∧
      added.length = (routes.srcPrefixes conn).toFinset.card
        + (if routes.linkRouteDue N ctx conn = true then 1 else 0) ∧
      (added.length = (routes.srcPrefixes conn).toFinset.card ∨
        added.length = (routes.srcPrefixes conn).toFinset.card + 1) := by
  have hp : ¬ routes.panics ctx conn := by simp [routes.panics, hi]
  have hG : (routes.globalRoutes N ctx conn).filter
      (fun r => r.Scope = linux.Route_Scope.GLOBAL) = routes.globalRoutes N ctx conn :=
    List.filter_eq_self.mpr (fun r hr => by simp [(routes.scope_globalRoutes N ctx conn r hr).1])
  have hG1 : (routes.globalRoutes N ctx conn).filter
      (fun r => r.Scope = linux.Route_Scope.LINK) = [] :=
    List.filter_eq_nil_iff.mpr (fun r hr => by simp [(routes.scope_globalRoutes N ctx conn r hr).1])
  have hL : (routes.linkRoutes N ctx conn).filter
      (fun r => r.Scope = linux.Route_Scope.LINK) = routes.linkRoutes N ctx conn :=
    List.filter_eq_self.mpr (fun r hr => by simp [routes.scope_linkRoutes N ctx conn r hr])
  have hL1 : (routes.linkRoutes N ctx conn).filter
      (fun r => r.Scope = linux.Route_Scope.GLOBAL) = [] :=
    List.filter_eq_nil_iff.mpr (fun r hr => by simp [routes.scope_linkRoutes N ctx conn r hr])
  refine ⟨routes.globalRoutes N ctx conn ++ routes.linkRoutes N ctx conn, ?_, ?_, ?_, ?_, ?_⟩
  · rw [routes.addRoutes_eq, if_neg hk, if_neg hp]
  · rw [List.filter_append, hG, hL1, List.append_nil, routes.length_globalRoutes]
  · rw [List.filter_append, hG1, hL, List.nil_append, routes.length_linkRoutes N ctx conn hd]
  · rw [List.length_append, routes.length_globalRoutes, routes.length_linkRoutes N ctx conn hd]
  · rw [List.length_append, routes.length_globalRoutes, routes.length_linkRoutes N ctx conn hd]
    split <;> simp

/-- C1 (amended), at two source routes with the same prefix and the
destination `8.8.8.8/32`: one global route and one link-scope route. -/
theorem addRoutes_route_count_witness :
    ∃ added, routes.addRoutes goNet scenario.registered
        (scenario.connection scenario.kernelMechanism "10.0.0.1/24" "8.8.8.8/32"
          ["10.0.0.0/24", "10.0.0.0/24"])
        = some (scenario.registered.appendRoutes added) ∧
      (added.filter (fun r => r.Scope = linux.Route_Scope.GLOBAL)).length
        = (routes.srcPrefixes (scenario.connection scenario.kernelMechanism "10.0.0.1/24"
            "8.8.8.8/32" ["10.0.0.0/24", "10.0.0.0/24"])).toFinset.card ∧
      (added.filter (fun r => r.Scope = linux.Route_Scope.LINK)).length
        = (if routes.linkRouteDue goNet scenario.registered
            (scenario.connection scenario.kernelMechanism "10.0.0.1/24" "8.8.8.8/32"
              ["10.0.0.0/24", "10.0.0.0/24"]) = true then 1 else 0) ∧
      added.length = (routes.srcPrefixes (scenario.connection scenario.kernelMechanism
            "10.0.0.1/24" "8.8.8.8/32" ["10.0.0.0/24", "10.0.0.0/24"])).toFinset.card
        + (if routes.linkRouteDue goNet scenario.registered
            (scenario.connection scenario.kernelMechanism "10.0.0.1/24" "8.8.8.8/32"
              ["10.0.0.0/24", "10.0.0.0/24"]) = true then 1 else 0) ∧
      (added.length = (routes.srcPrefixes (scenario.connection scenario.kernelMechanism
            "10.0.0.1/24" "8.8.8.8/32" ["10.0.0.0/24", "10.0.0.0/24"])).toFinset.card ∨
        added.length = (routes.srcPrefixes (scenario.connection scenario.kernelMechanism
            "10.0.0.1/24" "8.8.8.8/32" ["10.0.0.0/24", "10.0.0.0/24"])).toFinset.card + 1) :=
  addRoutes_route_count goNet scenario.registered
    (scenario.connection scenario.kernelMechanism "10.0.0.1/24" "8.8.8.8/32"
      ["10.0.0.0/24", "10.0.0.0/24"]) 0 [] (by decide) (by decide)
    (by
      intro dstIP dstNet h
      have h1 : goNet.ParseCIDR "8.8.8.8/32"
          = some ([8, 8, 8, 8], { IP := [8, 8, 8, 8], Mask := [255, 255, 255, 255] }) := by
        decide
      have h2 : goNet.ParseCIDR "8.8.8.8/32" = some (dstIP, dstNet) := h
      rw [h1] at h2
      cases h2
      decide)

namespace routes

theorem map_dstNetwork_globalRoutes (N : NetLib) (ctx : Ctx)
    (conn : Option networkservice.Connection) :
    (globalRoutes N ctx conn).map (fun r => r.DstNetwork) = firstOccurrences (srcPrefixes conn) := by
  simp [globalRoutes, globalRoute, Function.comp_def]

theorem dstNetwork_linkRoutes (N : NetLib) (ctx : Ctx) (conn : Option networkservice.Connection)
    (r : linux.Route) (hr : r ∈ linkRoutes N ctx conn) : r.DstNetwork ∉ srcPrefixes conn := by
  unfold linkRoutes at hr
  split at hr
  · split at hr
    · simp at hr
    · rename_i hc
      split at hr
      · simp only [List.mem_singleton] at hr
        rw [hr]
        exact fun hm => hc (Or.inl hm)
      · simp at hr
  · simp at hr

theorem nodup_dstNetwork (N : NetLib) (ctx : Ctx) (conn : Option networkservice.Connection) :
    ((globalRoutes N ctx conn ++ linkRoutes N ctx conn).map (fun r => r.DstNetwork)).Nodup := by
  rw [List.map_append, map_dstNetwork_globalRoutes]
  refine List.Nodup.append (nodup_firstOccurrences _) ?_ ?_
  · have hl := length_linkRoutes_le N ctx conn
    cases hL : linkRoutes N ctx conn with
    | nil => simp
    | cons a t =>
      cases t with
      | nil => simp
      | cons b t => simp [hL] at hl
  · intro x hx hy
    rw [mem_firstOccurrences] at hx
    obtain ⟨r, hr, rfl⟩ := List.mem_map.mp hy
    exact dstNetwork_linkRoutes N ctx conn r hr hx

theorem globalRoutes_appendRoutes (N : NetLib) (ctx : Ctx)
    (conn : Option networkservice.Connection) (rs : List linux.Route) :
    globalRoutes N (ctx.appendRoutes rs) conn = globalRoutes N ctx conn := rfl

theorem linkRoutes_appendRoutes (N : NetLib) (ctx : Ctx)
    (conn : Option networkservice.Connection) (rs : List linux.Route) :
    linkRoutes N (ctx.appendRoutes rs) conn = linkRoutes N ctx conn := rfl

theorem panics_appendRoutes (ctx : Ctx) (conn : Option networkservice.Connection)
    (rs : List linux.Route) : panics (ctx.appendRoutes rs) conn ↔ panics ctx conn := Iff.rfl

end routes

/-- C2, as stated, fails: on the staged configuration holding `vppKernel0`, a
second `addRoutes` with the identical connection appends the global route for
`10.0.0.0/24` again, so the route list after the second invocation differs
from the list after the first. -/
theorem c2_second_invocation_duplicates :
    routes.addRoutes goNet scenario.registered
        (scenario.connection scenario.kernelMechanism "10.0.0.1/24" "10.0.0.2/24" ["10.0.0.0/24"])
      = some (scenario.registered.appendRoutes
          [{ DstNetwork := "10.0.0.0/24", OutgoingInterface := "vppKernel0",
             Scope := linux.Route_Scope.GLOBAL, GwAddr := "10.0.0.2" }]) ∧
    routes.addRoutes goNet
        (scenario.registered.appendRoutes
          [{ DstNetwork := "10.0.0.0/24", OutgoingInterface := "vppKernel0",
             Scope := linux.Route_Scope.GLOBAL, GwAddr := "10.0.0.2" }])
        (scenario.connection scenario.kernelMechanism "10.0.0.1/24" "10.0.0.2/24" ["10.0.0.0/24"])
      = some (scenario.registered.appendRoutes
          [{ DstNetwork := "10.0.0.0/24", OutgoingInterface := "vppKernel0",
             Scope := linux.Route_Scope.GLOBAL, GwAddr := "10.0.0.2" },
           { DstNetwork := "10.0.0.0/24", OutgoingInterface := "vppKernel0",
             Scope := linux.Route_Scope.GLOBAL, GwAddr := "10.0.0.2" }]) ∧
    (scenario.registered.appendRoutes
          [{ DstNetwork := "10.0.0.0/24", OutgoingInterface := "vppKernel0",
             Scope := linux.Route_Scope.GLOBAL, GwAddr := "10.0.0.2" },
           { DstNetwork := "10.0.0.0/24", OutgoingInterface := "vppKernel0",
             Scope := linux.Route_Scope.GLOBAL, GwAddr := "10.0.0.2" }]).LinuxConfig.Routes
      ≠ (scenario.registered.appendRoutes
          [{ DstNetwork := "10.0.0.0/24", OutgoingInterface := "vppKernel0",
             Scope := linux.Route_Scope.GLOBAL, GwAddr := "10.0.0.2" }]).LinuxConfig.Routes := by
  decide

/-- C2 (amended): the duplicate set lives for one invocation only.  Within one
invocation of `addRoutes` no two appended routes have the same destination
prefix; a second invocation with the identical connection on the resulting
staged configuration completes and appends the same routes once more. -/
theorem addRoutes_twice (N : NetLib) (ctx ctx1 : Ctx) (conn : Option networkservice.Connection)
    (h : routes.addRoutes N ctx conn = some ctx1) :
    ∃ added, ctx1 = ctx.appendRoutes added ∧
      (added.map (fun r => r.DstNetwork)).Nodup ∧
      routes.addRoutes N ctx1 conn = some (ctx1.appendRoutes added) := by
  rw [routes.addRoutes_eq] at h
  by_cases hk : kernel.ToMechanism (networkservice.GetMechanism conn) = none
  · rw [if_pos hk] at h
    cases h
    exact ⟨[], (Ctx.appendRoutes_nil _).symm, List.nodup_nil, by
      rw [routes.addRoutes_eq, if_pos hk, Ctx.appendRoutes_nil]⟩
  · rw [if_neg hk] at h
    by_cases hp : routes.panics ctx conn
    · rw [if_pos hp] at h
      cases h
    · rw [if_neg hp] at h
      cases h
      refine ⟨_, rfl, routes.nodup_dstNetwork N ctx conn, ?_⟩
      rw [routes.addRoutes_eq, if_neg hk,
        if_neg (fun hq => hp ((routes.panics_appendRoutes ctx conn _).mp hq)),
        routes.globalRoutes_appendRoutes, routes.linkRoutes_appendRoutes]

/-- C2 (amended), at the connection with source route `10.0.0.0/24`. -/
theorem addRoutes_twice_witness :
    ∃ added, scenario.registered.appendRoutes
          [{ DstNetwork := "10.0.0.0/24", OutgoingInterface := "vppKernel0",
             Scope := linux.Route_Scope.GLOBAL, GwAddr := "10.0.0.2" }]
        = scenario.registered.appendRoutes added ∧
      (added.map (fun r => r.DstNetwork)).Nodup ∧
      routes.addRoutes goNet
          (scenario.registered.appendRoutes
            [{ DstNetwork := "10.0.0.0/24", OutgoingInterface := "vppKernel0",
               Scope := linux.Route_Scope.GLOBAL, GwAddr := "10.0.0.2" }])
          (scenario.connection scenario.kernelMechanism "10.0.0.1/24" "10.0.0.2/24"
            ["10.0.0.0/24"])
        = some ((scenario.registered.appendRoutes
            [{ DstNetwork := "10.0.0.0/24", OutgoingInterface := "vppKernel0",
               Scope := linux.Route_Scope.GLOBAL, GwAddr := "10.0.0.2" }]).appendRoutes added) :=
  addRoutes_twice goNet scenario.registered _
    (scenario.connection scenario.kernelMechanism "10.0.0.1/24" "10.0.0.2/24" ["10.0.0.0/24"])
    (by decide)

namespace routes

/-- A destination inside the source network gets no link-scope route. -/
theorem linkRoutes_of_contains (N : NetLib) (ctx : Ctx) (conn : Option networkservice.Connection)
    (srcIP : net.IP) (srcNet : net.IPNet) (dstIP : net.IP) (dstNet : net.IPNet)
    (hs : N.ParseCIDR (networkservice.GetSrcIpAddr conn) = some (srcIP, srcNet))
    (hd : N.ParseCIDR (networkservice.GetDstIpAddr conn) = some (dstIP, dstNet))
    (hc : N.Contains srcNet dstIP = true) :
    linkRoutes N ctx conn = [] := by
  unfold linkRoutes
  rw [hs, hd]
  cases ctx.ServerInterface <;> simp [hc]

/-- The link-scope step when all of its conditions hold. -/
theorem linkRoutes_of_due (N : NetLib) (ctx : Ctx) (conn : Option networkservice.Connection)
    (srcIP : net.IP) (srcNet : net.IPNet) (dstIP : net.IP) (dstNet : net.IPNet) (iface : Nat)
    (hs : N.ParseCIDR (networkservice.GetSrcIpAddr conn) = some (srcIP, srcNet))
    (hd : N.ParseCIDR (networkservice.GetDstIpAddr conn) = some (dstIP, dstNet))
    (hc : N.Contains srcNet dstIP = false)
    (hdup : N.IPNetString dstNet ∉ srcPrefixes conn)
    (hg : N.IsGlobalUnicast dstIP = true)
    (hif : ctx.ServerInterface = some iface) :
    linkRoutes N ctx conn = [linkRoute N ctx dstNet iface] := by
  unfold linkRoutes
  rw [hs, hd, hif]
  simp [hc, hdup, hg]

end routes

/-- C3: when the source address parses and the destination address lies inside
the source network, `addRoutes` appends no link-scope route: it panics exactly
on the inputs on which it always does (kernel mechanism, a source route, no
registered interface), and otherwise completes having appended only the global
routes derived from the source routes (none for a non-kernel mechanism). -/
theorem addRoutes_contained (N : NetLib) (ctx : Ctx) (conn : Option networkservice.Connection)
    (srcIP : net.IP) (srcNet : net.IPNet) (dstIP : net.IP) (dstNet : net.IPNet)
    (hs : N.ParseCIDR (networkservice.GetSrcIpAddr conn) = some (srcIP, srcNet))
    (hd : N.ParseCIDR (networkservice.GetDstIpAddr conn) = some (dstIP, dstNet))
    (hc : N.Contains srcNet dstIP = true) :
    (routes.panics ctx conn → routes.addRoutes N ctx conn = none) ∧
    (¬ routes.panics ctx conn →
      ∃ added, routes.addRoutes N ctx conn = some (ctx.appendRoutes added) ∧
        added = (if kernel.ToMechanism (networkservice.GetMechanism conn) = none then []
          else routes.globalRoutes N ctx conn) ∧
        ∀ r ∈ added, r.Scope = linux.Route_Scope.GLOBAL ∧
          r.DstNetwork ∈ routes.srcPrefixes conn) := by
  have hL := routes.linkRoutes_of_contains N ctx conn srcIP srcNet dstIP dstNet hs hd hc
  constructor
  · intro hp
    rw [routes.addRoutes_eq, if_neg hp.1, if_pos hp]
  · intro hp
    by_cases hk : kernel.ToMechanism (networkservice.GetMechanism conn) = none
    · refine ⟨[], ?_, by rw [if_pos hk], by simp⟩
      rw [routes.addRoutes_eq, if_pos hk, Ctx.appendRoutes_nil]
    · refine ⟨routes.globalRoutes N ctx conn, ?_, by rw [if_neg hk],
        fun r hr => routes.scope_globalRoutes N ctx conn r hr⟩
      rw [routes.addRoutes_eq, if_neg hk, if_neg hp, hL, List.append_nil]

/-- C3, at source address `10.0.0.1/24`, destination `10.0.0.2/24` and source
route `10.0.0.0/24`. -/
theorem addRoutes_contained_witness :
    (routes.panics scenario.registered
        (scenario.connection scenario.kernelMechanism "10.0.0.1/24" "10.0.0.2/24"
          ["10.0.0.0/24"]) →
      routes.addRoutes goNet scenario.registered
        (scenario.connection scenario.kernelMechanism "10.0.0.1/24" "10.0.0.2/24"
          ["10.0.0.0/24"]) = none) ∧
    (¬ routes.panics scenario.registered
        (scenario.connection scenario.kernelMechanism "10.0.0.1/24" "10.0.0.2/24"
          ["10.0.0.0/24"]) →
      ∃ added, routes.addRoutes goNet scenario.registered
          (scenario.connection scenario.kernelMechanism "10.0.0.1/24" "10.0.0.2/24"
            ["10.0.0.0/24"]) = some (scenario.registered.appendRoutes added) ∧
        added = (if kernel.ToMechanism (networkservice.GetMechanism
            (scenario.connection scenario.kernelMechanism "10.0.0.1/24" "10.0.0.2/24"
              ["10.0.0.0/24"])) = none then []
          else routes.globalRoutes goNet scenario.registered
            (scenario.connection scenario.kernelMechanism "10.0.0.1/24" "10.0.0.2/24"
              ["10.0.0.0/24"])) ∧
        ∀ r ∈ added, r.Scope = linux.Route_Scope.GLOBAL ∧
          r.DstNetwork ∈ routes.srcPrefixes
            (scenario.connection scenario.kernelMechanism "10.0.0.1/24" "10.0.0.2/24"
              ["10.0.0.0/24"])) :=
  addRoutes_contained goNet scenario.registered
    (scenario.connection scenario.kernelMechanism "10.0.0.1/24" "10.0.0.2/24" ["10.0.0.0/24"])
    [10, 0, 0, 1] { IP := [10, 0, 0, 0], Mask := [255, 255, 255, 0] }
    [10, 0, 0, 2] { IP := [10, 0, 0, 0], Mask := [255, 255, 255, 0] }
    (by decide) (by decide) (by decide)

/-- C4, as stated, fails: a memif-mechanism connection with source address
`10.0.0.1/24`, destination `8.8.8.8/32` and kernel-side interface `vppKernel0`
meets every condition of the claim, and `addRoutes` appends nothing. -/
theorem c4_no_link_route_without_kernel_mechanism :
    goNet.ParseCIDR "10.0.0.1/24"
        = some ([10, 0, 0, 1], { IP := [10, 0, 0, 0], Mask := [255, 255, 255, 0] }) ∧
      goNet.ParseCIDR "8.8.8.8/32"
        = some ([8, 8, 8, 8], { IP := [8, 8, 8, 8], Mask := [255, 255, 255, 255] }) ∧
      goNet.Contains { IP := [10, 0, 0, 0], Mask := [255, 255, 255, 0] } [8, 8, 8, 8] = false ∧
      goNet.IPNetString { IP := [8, 8, 8, 8], Mask := [255, 255, 255, 255] }
        ∉ routes.srcPrefixes
          (scenario.connection scenario.memifMechanism "10.0.0.1/24" "8.8.8.8/32" []) ∧
      goNet.IsGlobalUnicast [8, 8, 8, 8] = true ∧
      scenario.registered.ServerInterface = some 0 ∧
      scenario.registered.GetName 0 = "vppKernel0" ∧
      routes.addRoutes goNet scenario.registered
          (scenario.connection scenario.memifMechanism "10.0.0.1/24" "8.8.8.8/32" [])
        = some scenario.registered ∧
      scenario.registered.LinuxConfig.Routes = [] := by
  decide

/-- C4 (amended): for a kernel-mechanism connection on which `addRoutes` does
not panic (an interface is registered in the staged configuration, or there is
no source route), if both addresses parse, the destination address is outside
the source network, the destination network is not a source-route prefix, the
destination is a global unicast address and the kernel-side interface is
present, then `addRoutes` appends, after the global routes, exactly one
link-scope route: its destination is the destination network, its outgoing
interface the name of the kernel-side interface, and it has no next hop. -/
theorem addRoutes_link_route (N : NetLib) (ctx : Ctx) (conn : Option networkservice.Connection)
    (srcIP : net.IP) (srcNet : net.IPNet) (dstIP : net.IP) (dstNet : net.IPNet) (iface : Nat)
    (hk : kernel.ToMechanism (networkservice.GetMechanism conn) ≠ none)
    (hreg : ctx.LinuxConfig.Interfaces ≠ [] ∨ networkservice.GetSrcRoutes conn = [])
    (hs : N.ParseCIDR (networkservice.GetSrcIpAddr conn) = some (srcIP, srcNet))
    (hd : N.ParseCIDR (networkservice.GetDstIpAddr conn) = some (dstIP, dstNet))
    (hc : N.Contains srcNet dstIP = false)
    (hdup : N.IPNetString dstNet ∉ routes.srcPrefixes conn)
    (hg : N.IsGlobalUnicast dstIP = true)
    (hif : ctx.ServerInterface = some iface) :
    routes.addRoutes N ctx conn
        = some (ctx.appendRoutes (routes.globalRoutes N ctx conn ++
            [{ DstNetwork := N.IPNetString dstNet
               OutgoingInterface := ctx.GetName iface
               Scope := linux.Route_Scope.LINK
               GwAddr := "" }])) ∧
      (∀ r ∈ routes.globalRoutes N ctx conn, r.Scope = linux.Route_Scope.GLOBAL) ∧
      (routes.globalRoutes N ctx conn).length = (routes.srcPrefixes conn).toFinset.card := by
  have hp : ¬ routes.panics ctx conn := by
    rintro ⟨_, h1, h2⟩
    rcases hreg with h | h
    · exact h h2
    · exact h1 h
  refine ⟨?_, fun r hr => (routes.scope_globalRoutes N ctx conn r hr).1,
    routes.length_globalRoutes N ctx conn⟩
  rw [routes.addRoutes_eq, if_neg hk, if_neg hp,
    routes.linkRoutes_of_due N ctx conn srcIP srcNet dstIP dstNet iface hs hd hc hdup hg hif]
  rfl

/-- C4 (amended), at the kernel-mechanism connection with source address
`10.0.0.1/24`, destination `8.8.8.8/32` and kernel-side interface
`vppKernel0`: exactly one route, link-scoped, to `8.8.8.8/32` through
`vppKernel0`. -/
theorem addRoutes_link_route_witness :
    routes.addRoutes goNet scenario.registered
        (scenario.connection scenario.kernelMechanism "10.0.0.1/24" "8.8.8.8/32" [])
      = some (scenario.registered.appendRoutes
          [{ DstNetwork := "8.8.8.8/32", OutgoingInterface := "vppKernel0",
             Scope := linux.Route_Scope.LINK, GwAddr := "" }]) :=
  (addRoutes_link_route goNet scenario.registered
    (scenario.connection scenario.kernelMechanism "10.0.0.1/24" "8.8.8.8/32" [])
    [10, 0, 0, 1] { IP := [10, 0, 0, 0], Mask := [255, 255, 255, 0] }
    [8, 8, 8, 8] { IP := [8, 8, 8, 8], Mask := [255, 255, 255, 255] } 0
    (by decide) (by decide) (by decide) (by decide) (by decide) (by decide) (by decide)
    (by decide)).1

/-- C5, as stated, fails: the destination address `8.8.8.8/33` does not parse
as address+prefix, and the global route for the source route `10.0.0.0/24`
gets the whole string, prefix suffix included, as its next hop. -/
theorem c5_unparseable_destination_keeps_suffix :
    goNet.ParseCIDR "8.8.8.8/33" = none ∧
    kernel.ToMechanism (networkservice.GetMechanism
        (scenario.connection scenario.kernelMechanism "10.0.0.1/24" "8.8.8.8/33"
          ["10.0.0.0/24"])) ≠ none ∧
    scenario.registered.LinuxConfig.Interfaces = [0] ∧
    routes.extractCleanIPAddress goNet "8.8.8.8/33" = "8.8.8.8/33" ∧
    routes.addRoutes goNet scenario.registered
        (scenario.connection scenario.kernelMechanism "10.0.0.1/24" "8.8.8.8/33"
          ["10.0.0.0/24"])
      = some (scenario.registered.appendRoutes
          [{ DstNetwork := "10.0.0.0/24", OutgoingInterface := "vppKernel0",
             Scope := linux.Route_Scope.GLOBAL, GwAddr := "8.8.8.8/33" }]) := by
  decide

/-- C5 (amended): for a kernel-mechanism connection with an interface
registered in the staged configuration, `addRoutes` completes and appends first
exactly one route per distinct source-route prefix, in order of first
occurrence (a repeated prefix adds nothing); each such route has that prefix as
destination, the name of the first registered interface as outgoing interface,
global scope, and as next hop the address part of the destination address when
that parses as address+prefix, and the destination string unchanged, suffix
included, when it does not.  Whatever follows these routes is link-scoped. -/
theorem addRoutes_global_routes (N : NetLib) (ctx : Ctx)
    (conn : Option networkservice.Connection) (p : Nat) (rest : List Nat)
    (hk : kernel.ToMechanism (networkservice.GetMechanism conn) ≠ none)
    (hi : ctx.LinuxConfig.Interfaces = p :: rest) :
    ∃ tail, routes.addRoutes N ctx conn
        = some (ctx.appendRoutes
            ((routes.firstOccurrences (routes.srcPrefixes conn)).map (fun pre =>
              ({ DstNetwork := pre
                 OutgoingInterface := ctx.GetName p
                 Scope := linux.Route_Scope.GLOBAL
                 GwAddr := routes.extractCleanIPAddress N (networkservice.GetDstIpAddr conn) } :
                linux.Route)) ++ tail)) ∧
      (∀ r ∈ tail, r.Scope = linux.Route_Scope.LINK) ∧
      (routes.firstOccurrences (routes.srcPrefixes conn)).Nodup ∧
      (∀ x, x ∈ routes.firstOccurrences (routes.srcPrefixes conn) ↔ x ∈ routes.srcPrefixes conn) ∧
      (routes.firstOccurrences (routes.srcPrefixes conn)).length
        = (routes.srcPrefixes conn).toFinset.card ∧
      (∀ ip ipnet, N.ParseCIDR (networkservice.GetDstIpAddr conn) = some (ip, ipnet) →
        routes.extractCleanIPAddress N (networkservice.GetDstIpAddr conn) = N.IPString ip) ∧
      (N.ParseCIDR (networkservice.GetDstIpAddr conn) = none →
        routes.extractCleanIPAddress N (networkservice.GetDstIpAddr conn)
          = networkservice.GetDstIpAddr conn) := by
  have hp : ¬ routes.panics ctx conn := by simp [routes.panics, hi]
  refine ⟨routes.linkRoutes N ctx conn, ?_, routes.scope_linkRoutes N ctx conn,
    routes.nodup_firstOccurrences _, routes.mem_firstOccurrences _,
    routes.length_firstOccurrences _, ?_, ?_⟩
  · rw [routes.addRoutes_eq, if_neg hk, if_neg hp, routes.globalRoutes_eq N ctx conn p rest hi]
  · intro ip ipnet h
    simp [routes.extractCleanIPAddress, h]
  · intro h
    simp [routes.extractCleanIPAddress, h]

/-- C5 (amended), at the source routes `10.0.0.0/24`, `10.1.0.0/16`,
`10.0.0.0/24` and
destination `10.0.0.2/24`: two global routes through `vppKernel0` with next hop
`10.0.0.2`, in order of first occurrence, and nothing but link-scoped routes
after them. -/
theorem addRoutes_global_routes_witness :
    ∃ tail, routes.addRoutes goNet scenario.registered
        (scenario.connection scenario.kernelMechanism "10.0.0.1/24" "10.0.0.2/24"
          ["10.0.0.0/24", "10.1.0.0/16", "10.0.0.0/24"])
      = some (scenario.registered.appendRoutes
          ([{ DstNetwork := "10.0.0.0/24", OutgoingInterface := "vppKernel0",
              Scope := linux.Route_Scope.GLOBAL, GwAddr := "10.0.0.2" },
            { DstNetwork := "10.1.0.0/16", OutgoingInterface := "vppKernel0",
              Scope := linux.Route_Scope.GLOBAL, GwAddr := "10.0.0.2" }] ++ tail)) ∧
      ∀ r ∈ tail, r.Scope = linux.Route_Scope.LINK :=
  (addRoutes_global_routes goNet scenario.registered
    (scenario.connection scenario.kernelMechanism "10.0.0.1/24" "10.0.0.2/24"
      ["10.0.0.0/24", "10.1.0.0/16", "10.0.0.0/24"]) 0 [] (by decide) (by decide)).elim
    (fun tail h => ⟨tail, h.1, h.2.1⟩)

/-- C7, as stated, fails: on a staged configuration without an interface, a
kernel-mechanism connection with a source route makes `addRoutes` panic at
`GetInterfaces()[0]`, so neither `Request` nor `Close` of the route handler
returns the result of the next handler, which is never called. -/
theorem c7_route_handler_panics_before_next :
    kernel.ToMechanism (networkservice.GetMechanism
        (scenario.connection scenario.kernelMechanism "10.0.0.1/24" "10.0.0.2/24"
          ["10.0.0.0/24"])) = some scenario.kernelMechanism ∧
      scenario.empty.LinuxConfig.Interfaces = [] ∧
      routes.Request goNet scenario.injecterror scenario.empty
          { Connection := scenario.connection scenario.kernelMechanism "10.0.0.1/24"
              "10.0.0.2/24" ["10.0.0.0/24"] } = none ∧
      routes.Close goNet scenario.injecterror scenario.empty
          (scenario.connection scenario.kernelMechanism "10.0.0.1/24" "10.0.0.2/24"
            ["10.0.0.0/24"]) = none ∧
      scenario.injecterror.Request scenario.empty
          { Connection := scenario.connection scenario.kernelMechanism "10.0.0.1/24"
              "10.0.0.2/24" ["10.0.0.0/24"] }
        = (scenario.empty, Except.error "error originates in injectErrorServer") :=
  ⟨by decide, by decide, rfl, rfl, rfl⟩

/-- C7 (amended): the address handler's `Request` and `Close` return exactly
the result of the next handler's `Request` and `Close`, for every environment.
So do the route handler's, for every environment and connection except a
kernel-mechanism connection with a source route on a staged configuration
without a registered interface; there `addRoutes` panics and the next handler
is not called.  In particular a failure of the next handler is returned as it
is. -/
theorem handlers_return_next_result (N : NetLib) (next : NextServer) (ctx : Ctx)
    (request : networkservice.NetworkServiceRequest)
    (conn : Option networkservice.Connection) :
    (¬ routes.panics ctx request.GetConnection →
      ∃ staged, routes.addRoutes N ctx request.GetConnection = some staged ∧
        routes.Request N next ctx request = some (next.Request staged request)) ∧
    (¬ routes.panics ctx conn →
      ∃ staged, routes.addRoutes N ctx conn = some staged ∧
        routes.Close N next ctx conn = some (next.Close staged conn)) ∧
    (routes.panics ctx request.GetConnection → routes.Request N next ctx request = none) ∧
    (routes.panics ctx conn → routes.Close N next ctx conn = none) ∧
    (∃ staged, ipaddress.Request next ctx request = next.Request staged request) ∧
    (∃ staged, ipaddress.Close next ctx conn = next.Close staged conn) := by
  have hsome : ∀ c, ¬ routes.panics ctx c → ∃ staged, routes.addRoutes N ctx c = some staged := by
    intro c hp
    rw [routes.addRoutes_eq]
    by_cases hk : kernel.ToMechanism (networkservice.GetMechanism c) = none
    · exact ⟨_, by rw [if_pos hk]⟩
    · exact ⟨_, by rw [if_neg hk, if_neg hp]⟩
  have hnone : ∀ c, routes.panics ctx c → routes.addRoutes N ctx c = none := by
    intro c hp
    rw [routes.addRoutes_eq, if_neg hp.1, if_pos hp]
  refine ⟨?_, ?_, ?_, ?_, ?_, ?_⟩
  · intro hp
    obtain ⟨staged, hs⟩ := hsome _ hp
    exact ⟨staged, hs, by simp [routes.Request, hs]⟩
  · intro hp
    obtain ⟨staged, hs⟩ := hsome _ hp
    exact ⟨staged, hs, by simp [routes.Close, hs]⟩
  · intro hp
    simp [routes.Request, hnone _ hp]
  · intro hp
    simp [routes.Close, hnone _ hp]
  · unfold ipaddress.Request
    cases ctx.ServerInterface with
    | none => exact ⟨ctx, rfl⟩
    | some iface =>
      by_cases h : networkservice.GetSrcIpAddr request.GetConnection = ""
      · exact ⟨ctx, by simp [h]⟩
      · exact ⟨ctx.appendIpAddress iface (networkservice.GetSrcIpAddr request.GetConnection),
          by simp [h]⟩
  · unfold ipaddress.Close
    cases ctx.ServerInterface with
    | none => exact ⟨ctx, rfl⟩
    | some iface =>
      by_cases h : networkservice.GetSrcIpAddr conn = ""
      · exact ⟨ctx, by simp [h]⟩
      · exact ⟨ctx.appendIpAddress iface (networkservice.GetSrcIpAddr conn), by simp [h]⟩

/-- C7 (amended), at the memif connection of the macaddress test in front of
the failing next handler: `Request` of the route handler fails with the error
of that handler. -/
theorem handlers_return_next_result_witness :
    ∃ staged, routes.addRoutes goNet scenario.registered
          (scenario.connection scenario.memifMechanism "" "" []) = some staged ∧
      routes.Request goNet scenario.injecterror scenario.registered
          { Connection := scenario.connection scenario.memifMechanism "" "" [] }
        = some (scenario.injecterror.Request staged
            { Connection := scenario.connection scenario.memifMechanism "" "" [] }) :=
  (handlers_return_next_result goNet scenario.injecterror scenario.registered
    { Connection := scenario.connection scenario.memifMechanism "" "" [] }
    (scenario.connection scenario.memifMechanism "" "" [])).1 (by decide)

/-- C9, as stated, fails in the direction from kernel mechanism to routes: a
kernel-mechanism connection whose context holds no source route and no
addresses puts no route into the staged configuration; `Request` and `Close`
hand the unchanged configuration to the next handler. -/
theorem c9_kernel_connection_without_routes :
    kernel.ToMechanism (networkservice.GetMechanism
        (scenario.connection scenario.kernelMechanism "" "" []))
      = some scenario.kernelMechanism ∧
    routes.addRoutes goNet scenario.registered
        (scenario.connection scenario.kernelMechanism "" "" [])
      = some scenario.registered ∧
    routes.Request goNet scenario.injecterror scenario.registered
        { Connection := scenario.connection scenario.kernelMechanism "" "" [] }
      = some (scenario.injecterror.Request scenario.registered
          { Connection := scenario.connection scenario.kernelMechanism "" "" [] }) ∧
    routes.Close goNet scenario.injecterror scenario.registered
        (scenario.connection scenario.kernelMechanism "" "" [])
      = some (scenario.injecterror.Close scenario.registered
          (scenario.connection scenario.kernelMechanism "" "" [])) :=
  ⟨by decide, by decide, rfl, rfl⟩

/-- C9 (amended): for a connection whose mechanism is absent or not of the
kernel type, `Request` and `Close` of the route handler hand the staged
configuration to the next handler exactly unchanged, whatever the connection
context holds.  For a kernel mechanism they hand it on with the routes derived
from the connection context appended (the global routes of the source routes,
then the link-scope route when it is due), or panic when there is a source
route and no registered interface.  So the staged configuration changes if and
only if the mechanism is of the kernel type and the context yields at least
one route. -/
theorem addRoutes_kernel_only (N : NetLib) (next : NextServer) (ctx : Ctx)
    (request : networkservice.NetworkServiceRequest) :
    ((networkservice.GetMechanism request.GetConnection = none ∨
        ∃ m, networkservice.GetMechanism request.GetConnection = some m ∧
          m.MechType ≠ kernel.MECHANISM) →
      routes.addRoutes N ctx request.GetConnection = some ctx ∧
        routes.Request N next ctx request = some (next.Request ctx request) ∧
        routes.Close N next ctx request.GetConnection
          = some (next.Close ctx request.GetConnection)) ∧
    ((∃ m, networkservice.GetMechanism request.GetConnection = some m ∧
        m.MechType = kernel.MECHANISM) →
      routes.addRoutes N ctx request.GetConnection
          = (if routes.panics ctx request.GetConnection then none
            else some (ctx.appendRoutes (routes.globalRoutes N ctx request.GetConnection ++
              routes.linkRoutes N ctx request.GetConnection))) ∧
        routes.Request N next ctx request
          = (if routes.panics ctx request.GetConnection then none
            else some (next.Request
              (ctx.appendRoutes (routes.globalRoutes N ctx request.GetConnection ++
                routes.linkRoutes N ctx request.GetConnection)) request)) ∧
        routes.Close N next ctx request.GetConnection
          = (if routes.panics ctx request.GetConnection then none
            else some (next.Close
              (ctx.appendRoutes (routes.globalRoutes N ctx request.GetConnection ++
                routes.linkRoutes N ctx request.GetConnection)) request.GetConnection))) ∧
    (∀ ctx1, routes.addRoutes N ctx request.GetConnection = some ctx1 →
      (ctx1 ≠ ctx ↔
        (∃ m, networkservice.GetMechanism request.GetConnection = some m ∧
          m.MechType = kernel.MECHANISM) ∧
        routes.globalRoutes N ctx request.GetConnection ++
          routes.linkRoutes N ctx request.GetConnection ≠ [])) := by
  have hnk : (networkservice.GetMechanism request.GetConnection = none ∨
        ∃ m, networkservice.GetMechanism request.GetConnection = some m ∧
          m.MechType ≠ kernel.MECHANISM) →
      kernel.ToMechanism (networkservice.GetMechanism request.GetConnection) = none := by
    rintro (h | ⟨m, h, hm⟩)
    · rw [h]
      rfl
    · rw [h]
      simp [kernel.ToMechanism, hm]
  have hk : (∃ m, networkservice.GetMechanism request.GetConnection = some m ∧
        m.MechType = kernel.MECHANISM) →
      kernel.ToMechanism (networkservice.GetMechanism request.GetConnection) ≠ none := by
    rintro ⟨m, h, hm⟩
    rw [h]
    simp [kernel.ToMechanism, hm]
  have hcases : (networkservice.GetMechanism request.GetConnection = none ∨
        ∃ m, networkservice.GetMechanism request.GetConnection = some m ∧
          m.MechType ≠ kernel.MECHANISM) ∨
      (∃ m, networkservice.GetMechanism request.GetConnection = some m ∧
        m.MechType = kernel.MECHANISM) := by
    cases hm : networkservice.GetMechanism request.GetConnection with
    | none => exact Or.inl (Or.inl rfl)
    | some m =>
      by_cases ht : m.MechType = kernel.MECHANISM
      · exact Or.inr ⟨m, rfl, ht⟩
      · exact Or.inl (Or.inr ⟨m, rfl, ht⟩)
  have happ : ∀ rs : List linux.Route, ctx.appendRoutes rs = ctx ↔ rs = [] := by
    intro rs
    constructor
    · intro h
      have h1 := congrArg (fun c : Ctx => c.LinuxConfig.Routes) h
      simpa [Ctx.appendRoutes] using h1
    · intro h
      rw [h, Ctx.appendRoutes_nil]
  refine ⟨?_, ?_, ?_⟩
  · intro h
    have h1 : routes.addRoutes N ctx request.GetConnection = some ctx := by
      rw [routes.addRoutes_eq, if_pos (hnk h)]
    exact ⟨h1, by simp [routes.Request, h1], by simp [routes.Close, h1]⟩
  · intro h
    have h1 : routes.addRoutes N ctx request.GetConnection
        = (if routes.panics ctx request.GetConnection then none
          else some (ctx.appendRoutes (routes.globalRoutes N ctx request.GetConnection ++
            routes.linkRoutes N ctx request.GetConnection))) := by
      rw [routes.addRoutes_eq, if_neg (hk h)]
    refine ⟨h1, ?_, ?_⟩
    · unfold routes.Request
      rw [h1]
      by_cases hp : routes.panics ctx request.GetConnection
      · simp [hp]
      · simp [hp]
    · unfold routes.Close
      rw [h1]
      by_cases hp : routes.panics ctx request.GetConnection
      · simp [hp]
      · simp [hp]
  · intro ctx1 h1
    rcases hcases with h | h
    · rw [routes.addRoutes_eq, if_pos (hnk h)] at h1
      cases h1
      constructor
      · intro hne
        exact absurd rfl hne
      · rintro ⟨hm, _⟩
        exact absurd (hnk h) (hk hm)
    · rw [routes.addRoutes_eq, if_neg (hk h)] at h1
      by_cases hp : routes.panics ctx request.GetConnection
      · rw [if_pos hp] at h1
        cases h1
      · rw [if_neg hp] at h1
        cases h1
        constructor
        · intro hne
          exact ⟨h, fun he => hne ((happ _).mpr he)⟩
        · rintro ⟨_, hne⟩ he
          exact hne ((happ _).mp he)

/-- C9 (amended), at the memif connection of the macaddress test carrying
addresses and a source route, where the staged configuration reaches the next
handler unchanged, and at the same connection with a kernel mechanism, where
`Request` hands on the staged configuration with the global route and the
link-scope route appended. -/
theorem addRoutes_kernel_only_witness :
    routes.Request goNet scenario.injecterror scenario.registered
        { Connection := scenario.connection scenario.memifMechanism "10.0.0.1/24" "8.8.8.8/32"
            ["10.0.0.0/24"] }
      = some (scenario.injecterror.Request scenario.registered
          { Connection := scenario.connection scenario.memifMechanism "10.0.0.1/24"
              "8.8.8.8/32" ["10.0.0.0/24"] }) ∧
    routes.Request goNet scenario.injecterror scenario.registered
        { Connection := scenario.connection scenario.kernelMechanism "10.0.0.1/24" "8.8.8.8/32"
            ["10.0.0.0/24"] }
      = some (scenario.injecterror.Request
          (scenario.registered.appendRoutes
            [{ DstNetwork := "10.0.0.0/24", OutgoingInterface := "vppKernel0",
               Scope := linux.Route_Scope.GLOBAL, GwAddr := "8.8.8.8" },
             { DstNetwork := "8.8.8.8/32", OutgoingInterface := "vppKernel0",
               Scope := linux.Route_Scope.LINK, GwAddr := "" }])
          { Connection := scenario.connection scenario.kernelMechanism "10.0.0.1/24"
              "8.8.8.8/32" ["10.0.0.0/24"] }) :=
  ⟨((addRoutes_kernel_only goNet scenario.injecterror scenario.registered
      { Connection := scenario.connection scenario.memifMechanism "10.0.0.1/24" "8.8.8.8/32"
          ["10.0.0.0/24"] }).1
      (Or.inr ⟨scenario.memifMechanism, rfl, by decide⟩)).2.1,
    (((addRoutes_kernel_only goNet scenario.injecterror scenario.registered
      { Connection := scenario.connection scenario.kernelMechanism "10.0.0.1/24" "8.8.8.8/32"
          ["10.0.0.0/24"] }).2.1
      ⟨scenario.kernelMechanism, rfl, by decide⟩).2.1).trans rfl⟩

/-- C10: `Close` applies the same mutation as `Request` for a request carrying
the connection.  For the route handler both run `addRoutes` on the connection,
so the next handler is handed the same staged configuration (the same routes
appended in the same order), or both panic.  For the address handler both hand
the next handler the same context: the source address appended to the address
list of the kernel-side interface if that interface is present and the source
address is not empty, the unchanged context otherwise. -/
theorem request_close_same_append (N : NetLib) (ctx : Ctx)
    (request : networkservice.NetworkServiceRequest) :
    (∀ next : NextServer,
      routes.Request N next ctx request
          = (routes.addRoutes N ctx request.GetConnection).map
              (fun staged => next.Request staged request) ∧
        routes.Close N next ctx request.GetConnection
          = (routes.addRoutes N ctx request.GetConnection).map
              (fun staged => next.Close staged request.GetConnection)) ∧
    (∃ staged : Ctx,
      (∀ next : NextServer,
        ipaddress.Request next ctx request = next.Request staged request ∧
          ipaddress.Close next ctx request.GetConnection
            = next.Close staged request.GetConnection) ∧
      staged.LinuxConfig = ctx.LinuxConfig ∧
      staged.ServerInterface = ctx.ServerInterface ∧
      ∀ q, staged.store.get? q = (ctx.store.get? q).map (fun i =>
        if ctx.ServerInterface = some q ∧
            networkservice.GetSrcIpAddr request.GetConnection ≠ "" then
          { i with IpAddresses :=
              i.IpAddresses ++ [networkservice.GetSrcIpAddr request.GetConnection] }
        else i)) := by
  constructor
  · intro next
    constructor
    · unfold routes.Request
      cases routes.addRoutes N ctx request.GetConnection <;> rfl
    · unfold routes.Close
      cases routes.addRoutes N ctx request.GetConnection <;> rfl
  · cases hif : ctx.ServerInterface with
    | none =>
      refine ⟨ctx, fun next => ⟨?_, ?_⟩, rfl, hif, fun q => ?_⟩
      · simp [ipaddress.Request, hif]
      · simp [ipaddress.Close, hif]
      · cases ctx.store.get? q <;> simp
    | some iface =>
      by_cases h : networkservice.GetSrcIpAddr request.GetConnection = ""
      · refine ⟨ctx, fun next => ⟨?_, ?_⟩, rfl, hif, fun q => ?_⟩
        · simp [ipaddress.Request, hif, h]
        · simp [ipaddress.Close, hif, h]
        · cases ctx.store.get? q <;> simp [h]
      · refine ⟨ctx.appendIpAddress iface (networkservice.GetSrcIpAddr request.GetConnection),
          fun next => ⟨?_, ?_⟩, rfl, hif, fun q => ?_⟩
        · simp [ipaddress.Request, hif, h]
        · simp [ipaddress.Close, hif, h]
        · simp only [Ctx.appendIpAddress, List.get?_eq_getElem?, List.getElem?_modify,
            Option.some.injEq, ne_eq, h, not_false_eq_true, and_true]
          rfl

/-- C8 fails on the code: the server value captured for `onHeal` is the copy
of `rv` taken before `rv.Endpoint` is assigned.  Its `Endpoint` is nil, not the
chain that `NewServer` returns, and a request issued through it does not enter
any handler chain, while a request on the returned endpoint enters the chain of
ten elements. -/
theorem NewServer_onHeal_unbound (name vppagentCC baseDir tunnelIP u vxlanInitFunc : String) :
    (xconnectns.NewServer name vppagentCC baseDir tunnelIP u vxlanInitFunc).onHeal
        = some (xconnectns.xconnectNSServer.mk none) ∧
      (xconnectns.xconnectNSServer.mk none).Endpoint = none ∧
      (xconnectns.xconnectNSServer.mk none).requestChain = none ∧
      (xconnectns.NewServer name vppagentCC baseDir tunnelIP u vxlanInitFunc).Endpoint ≠ none ∧
      ((xconnectns.NewServer name vppagentCC baseDir tunnelIP u vxlanInitFunc).requestChain.map
        List.length) = some 10 :=
  ⟨rfl, rfl, rfl, fun h => Option.noConfusion h, rfl⟩
